import Mathlib

/-!
Verification development for the `genspec` CLI documentation generator.

The embedding models the Document Generation Engine:
`src/service/generateReadmeService.ts` (directory check, folder scan,
prompt construction, provider dispatch, conditional write, recursive walk),
`src/service/generateCopilotInstructionsService.ts` (recursive README
discovery, aggregation, unconditional write) and `src/repository/llm.ts`
(prefix dispatch on the model name).

The filesystem is a finite tree of named entries; reads, writes, provider
calls and console messages are recorded as an event trace in execution
order.  The LLM provider is an oracle parameter `String → Except Unit String`
(the `call` member of the repository returned by `getLLMRepository`): an
`Except.error` models a rejected promise (`ProviderCallError`), an
`Except.ok` models returned text.  Machine-level details outside the
engine's contract (file encodings, `statSync` metadata, the idempotent
`mkdirSync` of the `.github` directory) are elided; JavaScript's
`String.prototype.slice(0, 1000)` is modelled as taking the first 1000
characters, and string truthiness (`if (content)`) as a test against `""`.
-/

namespace Genspec

/-- A filesystem node: a regular file with its text content, or a directory
with its child entries in listing order (`fs.readdirSync` order). -/
inductive FSNode where
  | file (content : String)
  | dir (entries : List (String × FSNode))
deriving Repr

/-- Observable I/O events of one generator run, in execution order. -/
inductive Ev where
  | readFile (path : String)
  | writeFile (path : String) (content : String)
  | providerCall (prompt : String)
  | log (msg : String)
deriving DecidableEq, Repr

/-- Errors a run can terminate with (thrown JavaScript exceptions).
`unsupportedModel` is the `Unsupported model:` error of `getLLMRepository`,
`providerCallError` a rejection from the provider client, `enotdir` the
`ENOTDIR` error `fs.readdirSync` raises on a path that is a regular file. -/
inductive RunError where
  | unsupportedModel (model : String)
  | providerCallError
  | enotdir (path : String)
deriving DecidableEq, Repr

/-- The provider oracle: behaviour of `llm.call` on a prompt. -/
def Oracle : Type := String → Except Unit String

/-- Model of `path.join` for one segment. -/
def pjoin (a b : String) : String := a ++ "/" ++ b

/-- Character-level model of `model.startsWith(prefixStr)`. -/
def strStartsWith (s p : String) : Bool := p.data.isPrefixOf s.data

/-- Character-level model of `name.toLowerCase()` (agrees with it on the
ASCII names involved here). -/
def strToLower (s : String) : String := ⟨s.data.map Char.toLower⟩

/-- Character-level model of `content.trim()`: strip leading and trailing
whitespace. -/
def strTrim (s : String) : String :=
  ⟨((s.data.dropWhile Char.isWhitespace).reverse.dropWhile
      Char.isWhitespace).reverse⟩

/-- Model of `Array.prototype.join(sep)` on a list of strings. -/
def joinSep (sep : String) : List String → String
  | [] => ""
  | [s] => s
  | s :: s' :: rest => s ++ sep ++ joinSep sep (s' :: rest)

/-- JavaScript `content.slice(0, 1000)`: the first 1000 characters. -/
def slice1000 (s : String) : String := ⟨s.data.take 1000⟩

/-- The file children of a directory listing, with contents, in listing
order: `fs.readdirSync(folderPath).filter(f => statSync(...).isFile())`
followed by reading each file. -/
def filesOf (entries : List (String × FSNode)) : List (String × String) :=
  entries.filterMap fun p =>
    match p.2 with
    | FSNode.file c => some (p.1, c)
    | FSNode.dir _ => none

/-- One scanned-file block of the README prompt:
`## ${rel}\n```\n${content}\n```` with the content sliced to
1000 characters (`rel` is the bare file name, since
`path.relative(folderPath, path.join(folderPath, file)) = file`). -/
def fileSummary (name content : String) : String :=
  "## " ++ name ++ "\n```\n" ++ slice1000 content ++ "\n```"

/-- The fixed instruction text of the README prompt before the interpolated
folder path. -/
def promptHead : String :=
  "\nBased on the contents of the files in the following folder, create a README.md that describes the purpose, rules, and roles of the files in this folder.\nOutput only raw markdown content. Do NOT wrap with \"\"\"markdown or any code block.\nInclude the following:\nFolder path: "

/-- The fixed instruction text of the README prompt between the folder path
and the scanned file summaries. -/
def promptTail : String :=
  "\n- Overview of the folder (natural language)\n  - Folder name (do not include path)\n  - Purpose of the folder\n- Naming conventions\n- Design policy\n- Technologies and libraries used\n- Concise explanation of the role of each file\n  - Display in table format\n    - File name\n    - Role\n    - Logic and functions\n      - Describe what logic or functions are implemented for each function\n    - Names of other files used\n      - Show dependencies\n- Code style and examples\n  - Explain implementation methods and code examples for each pattern\n- File templates and explanations\n- Coding rules based on the above\n- Notes for developers\n"

/-- The README prompt built by `generateReadmeService` for one folder. -/
def mkPrompt (folderPath : String) (files : List (String × String)) : String :=
  promptHead ++ folderPath ++ promptTail ++
    joinSep "\n\n" (files.map fun p => fileSummary p.1 p.2) ++ "\n"

/-- Provider dispatch of `getLLMRepository` in `src/repository/llm.ts`:
the `gpt-` prefix selects the OpenAI client, the `gemini-` prefix the
Gemini client, anything else throws `Unsupported model`.  The client
object itself carries no state the engine observes, so a successful
dispatch is modelled as `Except.ok ()`. -/
def getLLMRepository (model : String) : Except RunError Unit :=
  if strStartsWith model "gpt-" then Except.ok ()
  else if strStartsWith model "gemini-" then Except.ok ()
  else Except.error (RunError.unsupportedModel model)

/-- Console message `✅ README.md generated: ${outputPath}`. -/
def readmeSuccessMsg (outputPath : String) : String :=
  "✅ README.md generated: " ++ outputPath

/-- Console message `❌ Failed to generate README.md`. -/
def readmeFailureMsg : String := "❌ Failed to generate README.md"

/-- Console message `Directory not found: ${folderPath}`. -/
def dirNotFoundMsg (p : String) : String := "Directory not found: " ++ p

/-- One folder's generation pass of `generateReadmeService` (its body up to
the recursive walk, on a folder that exists as a directory): scan the
immediate file children, build the prompt, resolve the provider, invoke it,
and write `README.md` when the result is non-empty.  Returns the content
written (if any), the event trace, and the thrown error (if any). -/
def generateReadmeOnce (oracle : Oracle) (model folderPath : String)
    (entries : List (String × FSNode)) :
    Option String × List Ev × Option RunError :=
  let files := filesOf entries
  let readEvs := files.map fun p => Ev.readFile (pjoin folderPath p.1)
  let prompt := mkPrompt folderPath files
  match getLLMRepository model with
  | Except.error e => (none, readEvs, some e)
  | Except.ok _ =>
    match oracle prompt with
    | Except.error _ =>
      (none, readEvs ++ [Ev.providerCall prompt], some RunError.providerCallError)
    | Except.ok content =>
      if content = "" then
        (none, readEvs ++ [Ev.providerCall prompt, Ev.log readmeFailureMsg], none)
      else
        (some content,
         readEvs ++
           [Ev.providerCall prompt,
            Ev.writeFile (pjoin folderPath "README.md") content,
            Ev.log (readmeSuccessMsg (pjoin folderPath "README.md"))],
         none)

/-- The effect of `fs.writeFileSync` on a directory listing: overwrite the
entry of that name if present, otherwise append a new one. -/
def writeEntry (entries : List (String × FSNode)) (name content : String) :
    List (String × FSNode) :=
  if entries.any fun p => p.1 == name then
    entries.map fun p => if p.1 == name then (p.1, FSNode.file content) else p
  else entries ++ [(name, FSNode.file content)]

/-- Apply the optional `README.md` write of one folder pass to its listing. -/
def applyWrite (w : Option String) (entries : List (String × FSNode)) :
    List (String × FSNode) :=
  match w with
  | none => entries
  | some c => writeEntry entries "README.md" c

mutual

/-- Full behaviour of `generateReadmeService` on an existing directory: the
single-folder pass, then — when `recursive` is set and the pass did not
throw — the sequential walk over the immediate subdirectories.  A thrown
error (no `try`/`catch` exists in the source) aborts the walk at once.
Returns the new listing of the directory, the event trace, and the error. -/
def genReadmeDir (oracle : Oracle) (model : String) (recursive : Bool)
    (folderPath : String) (entries : List (String × FSNode)) :
    List (String × FSNode) × List Ev × Option RunError :=
  match generateReadmeOnce oracle model folderPath entries with
  | (w, evs, some e) => (applyWrite w entries, evs, some e)
  | (w, evs, none) =>
    if recursive then
      match genReadmeSubdirs oracle model folderPath entries with
      | (es', evs', err) => (applyWrite w es', evs ++ evs', err)
    else (applyWrite w entries, evs, none)
termination_by (sizeOf entries, 1)

/-- The `for (const subdir of subdirs)` loop of `generateReadmeService`:
each immediate subdirectory is processed in listing order by a fresh
recursive call (with `recursive: true`); file entries are untouched; a
thrown error stops the loop, leaving later siblings unprocessed. -/
def genReadmeSubdirs (oracle : Oracle) (model : String) (folderPath : String)
    (entries : List (String × FSNode)) :
    List (String × FSNode) × List Ev × Option RunError :=
  match entries with
  | [] => ([], [], none)
  | (n, FSNode.file c) :: rest =>
    match genReadmeSubdirs oracle model folderPath rest with
    | (rest', evs, err) => ((n, FSNode.file c) :: rest', evs, err)
  | (n, FSNode.dir es) :: rest =>
    match genReadmeDir oracle model true (pjoin folderPath n) es with
    | (es', evs₁, some e) => ((n, FSNode.dir es') :: rest, evs₁, some e)
    | (es', evs₁, none) =>
      match genReadmeSubdirs oracle model folderPath rest with
      | (rest', evs₂, err) => ((n, FSNode.dir es') :: rest', evs₁ ++ evs₂, err)
termination_by (sizeOf entries, 0)

end

/-- Resolve a path (list of segments) in the tree, as the filesystem would. -/
def lookupNode : FSNode → List String → Option FSNode
  | n, [] => some n
  | FSNode.file _, _ :: _ => none
  | FSNode.dir es, s :: rest =>
    match es.find? fun p => p.1 == s with
    | none => none
    | some p => lookupNode p.2 rest

/-- Render a path as the string the CLI passes for `folderPath`. -/
def pathOf (segs : List String) : String := joinSep "/" segs

/-- Entry point of `generateReadmeService`: `fs.existsSync` guards the run —
a missing path is reported as `Directory not found` and the call returns
with no further effect; a path that exists but is a regular file passes the
guard and then crashes in `fs.readdirSync` with `ENOTDIR`; a directory is
processed by the folder pass and optional recursion.  The first component
is the new subtree at the target path (`none` when nothing was touched). -/
def generateReadmeService (oracle : Oracle) (model : String) (recursive : Bool)
    (root : FSNode) (segs : List String) :
    Option FSNode × List Ev × Option RunError :=
  match lookupNode root segs with
  | none => (none, [Ev.log (dirNotFoundMsg (pathOf segs))], none)
  | some (FSNode.file _) => (none, [], some (RunError.enotdir (pathOf segs)))
  | some (FSNode.dir es) =>
    match genReadmeDir oracle model recursive (pathOf segs) es with
    | (es', evs, err) => (some (FSNode.dir es'), evs, err)

/-- Model of `path.relative(rootDir, path.join(rootDir, ...))` composition:
extending a relative path by one segment (empty prefix at the root). -/
def joinRel (pre n : String) : String := if pre = "" then n else pre ++ "/" ++ n

/-- Recursive README discovery of `generateCopilotInstructionsService`
(`findAllReadmesRecursively` fused with the content-reading `map` that
immediately follows it in the service): walk the whole tree in listing
order, descending into every directory, and collect every file whose name
lowercases to `readme.md`, as (path relative to the root, content) pairs
in discovery order. -/
def findAllReadmesRecursively (pre : String) :
    List (String × FSNode) → List (String × String)
  | [] => []
  | (n, FSNode.dir es) :: rest =>
    findAllReadmesRecursively (joinRel pre n) es ++
      findAllReadmesRecursively pre rest
  | (n, FSNode.file c) :: rest =>
    if strToLower n = "readme.md" then
      (joinRel pre n, c) :: findAllReadmesRecursively pre rest
    else findAllReadmesRecursively pre rest
termination_by entries => sizeOf entries

/-- Specification-side collector, independent of the discovery filter: every
file of the tree with its name, its path relative to the root, and its
content, in the same traversal order. -/
def allFilesRel (pre : String) :
    List (String × FSNode) → List (String × String × String)
  | [] => []
  | (n, FSNode.dir es) :: rest =>
    allFilesRel (joinRel pre n) es ++ allFilesRel pre rest
  | (n, FSNode.file c) :: rest => (n, joinRel pre n, c) :: allFilesRel pre rest
termination_by entries => sizeOf entries

/-- One tagged README block of the aggregate:
`# ${rel}\n\n${content.trim()}\n`. -/
def readmeTag (rel content : String) : String :=
  "# " ++ rel ++ "\n\n" ++ strTrim content ++ "\n"

/-- The aggregate README text `allReadmeContents`: all discovered blocks in
discovery order, joined by the fixed `\n---\n` delimiter. -/
def allReadmeContents (entries : List (String × FSNode)) : String :=
  joinSep "\n---\n"
    ((findAllReadmesRecursively "" entries).map fun p => readmeTag p.1 p.2)

/-- Fixed instruction text of the copilot prompt before the interpolated
output language. -/
def copilotPromptHead : String :=
  "You are to create a single copilot-instructions.md file for the entire project, based only on the following README files from each folder. Please output the copilot-instructions in "

/-- Fixed instruction text of the copilot prompt between the language and
the aggregate README contents. -/
def copilotPromptMid : String :=
  " language.\nIntegrate the rules, coding conventions, and important notes from all folders.\nOutput only raw markdown content. Do NOT wrap with code block. Do NOT use any code block (such as triple backticks ``` or ```markdown). Output only pure markdown text, never wrap any part in a code block.\n\n"

/-- The prompt `generateCopilotInstructionsService` passes to the provider. -/
def copilotPrompt (language : String) (entries : List (String × FSNode)) :
    String :=
  copilotPromptHead ++ language ++ copilotPromptMid ++ allReadmeContents entries

/-- The `readmeSection` appended to the provider output before writing:
`\n\n---\n\n# All README files\n` plus the aggregate README contents. -/
def readmeSectionOf (entries : List (String × FSNode)) : String :=
  "\n\n---\n\n# All README files\n" ++ allReadmeContents entries

/-- The fixed output location `path.join(cwd, '.github',
'copilot-instructions.md')`, resolved off the working directory. -/
def copilotOutputPath (cwd : String) : String :=
  pjoin (pjoin cwd ".github") "copilot-instructions.md"

/-- Console message `✅ Copilot instructions generated: ${outputPath}`. -/
def copilotSuccessMsg (outputPath : String) : String :=
  "✅ Copilot instructions generated: " ++ outputPath

/-- Console message `❌ Failed to generate copilot-instructions.md`. -/
def copilotFailureMsg : String := "❌ Failed to generate copilot-instructions.md"

/-- Result of one copilot run: the content written to the output file
(`none` when the run threw before reaching the write), the event trace,
and the thrown error (if any). -/
structure CopilotRun where
  written : Option String
  events : List Ev
  err : Option RunError
deriving Repr

/-- Content of the output file after a copilot run, given its prior
content (`prior = none` when no file existed). -/
def fileAfter (prior : Option String) (r : CopilotRun) : Option String :=
  match r.written with
  | some c => some c
  | none => prior

/-- Behaviour of `generateCopilotInstructionsService` on a root directory
listing: discover and read every README, build the aggregate and the
prompt, resolve the provider, invoke it, and write
`(instructionContent || '') + readmeSection` to the fixed output path —
the write is unconditional once the provider call returns; only the final
console message distinguishes success from `GenerationFailed`.  The
idempotent `mkdirSync` of the `.github` directory is elided. -/
def generateCopilotInstructionsService (oracle : Oracle)
    (model language cwd rootDir : String)
    (entries : List (String × FSNode)) : CopilotRun :=
  let readmes := findAllReadmesRecursively "" entries
  let readEvs := readmes.map fun p => Ev.readFile (pjoin rootDir p.1)
  let prompt := copilotPrompt language entries
  match getLLMRepository model with
  | Except.error e => ⟨none, readEvs, some e⟩
  | Except.ok _ =>
    match oracle prompt with
    | Except.error _ =>
      ⟨none, readEvs ++ [Ev.providerCall prompt], some RunError.providerCallError⟩
    | Except.ok s =>
      let fc := (if s = "" then "" else s) ++ readmeSectionOf entries
      ⟨some fc,
       readEvs ++
         [Ev.providerCall prompt,
          Ev.writeFile (copilotOutputPath cwd) fc,
          Ev.log (if s = "" then copilotFailureMsg
                  else copilotSuccessMsg (copilotOutputPath cwd))],
       none⟩

/-! ### Concrete example data for scenario runs -/

/-- Constant provider: always returns `OK`. -/
def okOracle : Oracle := fun _ => Except.ok "OK"

/-- Constant provider: always returns the empty string (a failed
generation). -/
def emptyOracle : Oracle := fun _ => Except.ok ""

/-- Constant provider: always returns `GEN`. -/
def genOracle : Oracle := fun _ => Except.ok "GEN"

/-- Provider whose call rejects exactly on the prompt of folder `d/s1` and
returns `T` otherwise. -/
def failS1Oracle : Oracle := fun p =>
  if p = mkPrompt "d/s1" [("f1.ts", "one")] then Except.error ()
  else Except.ok "T"

/-- Example tree with two sibling subdirectories `s1` and `s2`. -/
def twoSubdirTree : List (String × FSNode) :=
  [("s1", FSNode.dir [("f1.ts", FSNode.file "one")]),
   ("s2", FSNode.dir [("f2.ts", FSNode.file "two")])]

/-- Example existing README content of 1001 characters: 1000 `a`s and a
final `@`. -/
def longReadme : String := ⟨List.replicate 1000 'a' ++ ['@']⟩

/-- Example file content consisting of a single 200-character line of `@`s
(longer than the 120-character width of the truncation scenario). -/
def longLine : String := ⟨List.replicate 200 '@'⟩

/-! ### General lemmas about the embedding -/

/-- Prepending the empty string is the identity. -/
theorem str_empty_append (s : String) : "" ++ s = s := by
  cases s
  rfl

theorem strdata_append (a b : String) : (a ++ b).data = a.data ++ b.data := rfl

/-- An infix of `m` is an infix of `pre ++ m ++ post`. -/
theorem infix_of_append (pre post : List Char) {l m : List Char}
    (h : l <:+: m) : l <:+: pre ++ m ++ post :=
  h.trans ⟨pre, post, rfl⟩

/-- An infix of `m` is an infix of `pre ++ m`. -/
theorem infix_of_append_left (pre : List Char) {l m : List Char}
    (h : l <:+: m) : l <:+: pre ++ m := by
  simpa using infix_of_append pre [] h

/-- Every member of the joined list occurs inside the join. -/
theorem joinSep_contains {s : String} {l : List String} (sep : String)
    (h : s ∈ l) : s.data <:+: (joinSep sep l).data := by
  induction l with
  | nil => cases h
  | cons a t ih =>
    cases t with
    | nil =>
      rcases List.mem_singleton.mp h with rfl
      exact List.infix_refl _
    | cons b t' =>
      rcases List.mem_cons.mp h with rfl | h'
      · exact ⟨[], (sep ++ joinSep sep (b :: t')).data, by
          simp [joinSep, strdata_append]⟩
      · have h2 : (joinSep sep (a :: b :: t')).data =
            (a ++ sep).data ++ (joinSep sep (b :: t')).data := by
          simp [joinSep, strdata_append]
        rw [h2]
        exact infix_of_append_left _ (ih h')

/-- A file child of the listing is in the scanned content set. -/
theorem mem_filesOf {n c : String} {entries : List (String × FSNode)}
    (h : (n, FSNode.file c) ∈ entries) : (n, c) ∈ filesOf entries := by
  simp only [filesOf, List.mem_filterMap]
  exact ⟨(n, FSNode.file c), h, rfl⟩

/-- Every scanned file's summary block occurs inside the README prompt. -/
theorem fileSummary_in_mkPrompt {n c : String} {files : List (String × String)}
    (folderPath : String) (h : (n, c) ∈ files) :
    (fileSummary n c).data <:+: (mkPrompt folderPath files).data := by
  have h1 : fileSummary n c ∈ files.map fun p => fileSummary p.1 p.2 := by
    exact List.mem_map.mpr ⟨(n, c), h, rfl⟩
  have h2 := joinSep_contains "\n\n" h1
  have h3 : (mkPrompt folderPath files).data =
      (promptHead ++ folderPath ++ promptTail).data ++
        (joinSep "\n\n" (files.map fun p => fileSummary p.1 p.2)).data ++
        "\n".data := by
    simp [mkPrompt, strdata_append]
  rw [h3]
  exact infix_of_append _ _ h2

/-- The scanned-file read events occur in every outcome of one folder pass,
before anything else. -/
theorem generateReadmeOnce_events_readEvs (oracle : Oracle)
    (model folderPath : String) (entries : List (String × FSNode)) :
    ∃ tail, (generateReadmeOnce oracle model folderPath entries).2.1 =
      ((filesOf entries).map fun p => Ev.readFile (pjoin folderPath p.1)) ++
        tail := by
  unfold generateReadmeOnce
  rcases hm : getLLMRepository model with e | u <;> simp only [hm]
  · exact ⟨[], by simp⟩
  · rcases ho : oracle (mkPrompt folderPath (filesOf entries)) with e | s <;>
      simp only [ho]
    · exact ⟨_, rfl⟩
    · by_cases hs : s = "" <;> simp only [hs, if_true, if_false, ite_true, ite_false] <;>
        exact ⟨_, rfl⟩

/-- Under a supported model, one folder pass always performs exactly one
provider call, on the folder's prompt. -/
theorem providerCall_mem_once {oracle : Oracle} {model : String}
    (folderPath : String) (entries : List (String × FSNode))
    (h : getLLMRepository model = Except.ok ()) :
    Ev.providerCall (mkPrompt folderPath (filesOf entries)) ∈
      (generateReadmeOnce oracle model folderPath entries).2.1 := by
  unfold generateReadmeOnce
  simp only [h]
  rcases ho : oracle (mkPrompt folderPath (filesOf entries)) with e | s <;>
    simp only [ho]
  · simp
  · by_cases hs : s = "" <;> simp [hs]

/-- A folder pass that throws performed no write. -/
theorem generateReadmeOnce_error_written {oracle : Oracle}
    {model folderPath : String} {entries : List (String × FSNode)}
    {w : Option String} {evs : List Ev} {e : RunError}
    (h : generateReadmeOnce oracle model folderPath entries = (w, evs, some e)) :
    w = none := by
  unfold generateReadmeOnce at h
  rcases hm : getLLMRepository model with e' | u <;> simp only [hm] at h
  · have h1 := congrArg (fun t => t.1) h
    simpa using h1.symm
  · rcases ho : oracle (mkPrompt folderPath (filesOf entries)) with e' | s <;>
      simp only [ho] at h
    · have h1 := congrArg (fun t => t.1) h
      simpa using h1.symm
    · by_cases hs : s = "" <;> simp [hs] at h

/-- The example long line has 200 characters. -/
theorem longLine_length : longLine.data.length = 200 := by
  rw [show longLine.data = List.replicate 200 '@' from rfl,
    List.length_replicate]

/-- Content of at most 1000 characters survives the slice unchanged. -/
theorem slice1000_of_le {s : String} (h : s.data.length ≤ 1000) :
    slice1000 s = s := by
  cases s with
  | mk l =>
    simp only [slice1000]
    exact congrArg String.mk (List.take_of_length_le h)

/-- Content of at most 1000 characters occurs raw inside its own summary
block. -/
theorem content_in_fileSummary {content : String} (name : String)
    (h : content.data.length ≤ 1000) :
    content.data <:+: (fileSummary name content).data := by
  refine ⟨("## " ++ name ++ "\n```\n").data, "\n```".data, ?_⟩
  rw [fileSummary, slice1000_of_le h]
  simp [strdata_append]

/-- The full directory run's event trace extends the folder pass's trace. -/
theorem genReadmeDir_events_extend (oracle : Oracle) (model : String)
    (recursive : Bool) (folderPath : String)
    (entries : List (String × FSNode)) :
    ∃ tail, (genReadmeDir oracle model recursive folderPath entries).2.1 =
      (generateReadmeOnce oracle model folderPath entries).2.1 ++ tail := by
  rw [genReadmeDir]
  rcases h : generateReadmeOnce oracle model folderPath entries with ⟨w, evs, err⟩
  rcases err with _ | e
  · rcases recursive with _ | _
    · exact ⟨[], by simp⟩
    · rcases genReadmeSubdirs oracle model folderPath entries with ⟨es', evs', err'⟩
      exact ⟨evs', by simp⟩
  · exact ⟨[], by simp⟩

/-- A thrown error in the first subdirectory's run stops the walk: the
remaining siblings are returned unprocessed and contribute no events. -/
theorem genReadmeSubdirs_cons_dir_error {oracle : Oracle} {model : String}
    {folderPath n : String} {es rest es' : List (String × FSNode)}
    {evs : List Ev} {e : RunError}
    (h : genReadmeDir oracle model true (pjoin folderPath n) es =
      (es', evs, some e)) :
    genReadmeSubdirs oracle model folderPath ((n, FSNode.dir es) :: rest) =
      ((n, FSNode.dir es') :: rest, evs, some e) := by
  rw [genReadmeSubdirs]
  simp only [h]

/-- A first subdirectory whose run returns normally (also after a logged
`GenerationFailed`) does not stop the walk: the loop proceeds to the
remaining siblings. -/
theorem genReadmeSubdirs_cons_dir_ok {oracle : Oracle} {model : String}
    {folderPath n : String} {es rest es' rest' : List (String × FSNode)}
    {evs₁ evs₂ : List Ev} {err : Option RunError}
    (h : genReadmeDir oracle model true (pjoin folderPath n) es =
      (es', evs₁, none))
    (hr : genReadmeSubdirs oracle model folderPath rest =
      (rest', evs₂, err)) :
    genReadmeSubdirs oracle model folderPath ((n, FSNode.dir es) :: rest) =
      ((n, FSNode.dir es') :: rest', evs₁ ++ evs₂, err) := by
  rw [genReadmeSubdirs]
  simp only [h, hr]

/-- The directory run composes: a folder pass that returned normally,
followed (in recursive mode) by the subdirectory walk, with the optional
`README.md` write applied to the walked listing. -/
theorem genReadmeDir_rec_eq {oracle : Oracle} {model folderPath : String}
    {entries : List (String × FSNode)} {w : Option String} {evs : List Ev}
    {es' : List (String × FSNode)} {evs' : List Ev} {err : Option RunError}
    (h : generateReadmeOnce oracle model folderPath entries = (w, evs, none))
    (hs : genReadmeSubdirs oracle model folderPath entries =
      (es', evs', err)) :
    genReadmeDir oracle model true folderPath entries =
      (applyWrite w es', evs ++ evs', err) := by
  rw [genReadmeDir]
  simp only [h, hs]
  simp

/-- Discovery completeness: every file of the tree whose name lowercases to
`readme.md`, at any depth, is collected by the recursive README discovery
with its relative path and its content. -/
theorem allFilesRel_readme_found {n r c : String} :
    ∀ (pre : String) (entries : List (String × FSNode)),
    (n, r, c) ∈ allFilesRel pre entries → strToLower n = "readme.md" →
    (r, c) ∈ findAllReadmesRecursively pre entries := by
  intro pre entries
  induction pre, entries using allFilesRel.induct with
  | case1 pre =>
    intro h _
    simp [allFilesRel] at h
  | case2 pre n' es rest ih1 ih2 =>
    intro h hlow
    simp only [allFilesRel, List.mem_append] at h
    simp only [findAllReadmesRecursively, List.mem_append]
    rcases h with h' | h'
    · exact Or.inl (ih1 h' hlow)
    · exact Or.inr (ih2 h' hlow)
  | case3 pre n' c' rest ih =>
    intro h hlow
    simp only [allFilesRel, List.mem_cons] at h
    rcases h with heq | h'
    · have h1 : n = n' := congrArg Prod.fst heq
      have h2 : r = joinRel pre n' := congrArg (fun t => t.2.1) heq
      have h3 : c = c' := congrArg (fun t => t.2.2) heq
      subst h1
      subst h3
      rw [h2, findAllReadmesRecursively, if_pos hlow]
      exact List.mem_cons_self _ _
    · by_cases hn : strToLower n' = "readme.md"
      · rw [findAllReadmesRecursively, if_pos hn]
        exact List.mem_cons_of_mem _ (ih h' hlow)
      · rw [findAllReadmesRecursively, if_neg hn]
        exact ih h' hlow

/-! ### Claim theorems -/

/-- Claim C2 (confirmed): a run of the README Generator writes
all-or-nothing.  Under a supported model, if the provider returns non-empty
text `s` the run writes exactly `s` to `README.md` at the target path
(overwriting any prior entry of that name) and logs success; if the
provider returns empty text the run logs the generation failure, performs
no write event, and returns the folder listing byte-for-byte unchanged. -/
theorem c2_readme_write_all_or_nothing (oracle : Oracle) (model : String)
    (folderPath : String) (entries : List (String × FSNode)) (s : String)
    (hm : getLLMRepository model = Except.ok ())
    (ho : oracle (mkPrompt folderPath (filesOf entries)) = Except.ok s) :
    (s ≠ "" → genReadmeDir oracle model false folderPath entries =
      (writeEntry entries "README.md" s,
       ((filesOf entries).map fun p => Ev.readFile (pjoin folderPath p.1)) ++
         [Ev.providerCall (mkPrompt folderPath (filesOf entries)),
          Ev.writeFile (pjoin folderPath "README.md") s,
          Ev.log (readmeSuccessMsg (pjoin folderPath "README.md"))],
       none)) ∧
    (s = "" → genReadmeDir oracle model false folderPath entries =
      (entries,
       ((filesOf entries).map fun p => Ev.readFile (pjoin folderPath p.1)) ++
         [Ev.providerCall (mkPrompt folderPath (filesOf entries)),
          Ev.log readmeFailureMsg],
       none) ∧
      ∀ p c, Ev.writeFile p c ∉
        (genReadmeDir oracle model false folderPath entries).2.1) := by
  constructor
  · intro hs
    have h1 : generateReadmeOnce oracle model folderPath entries =
        (some s,
         ((filesOf entries).map fun p => Ev.readFile (pjoin folderPath p.1)) ++
           [Ev.providerCall (mkPrompt folderPath (filesOf entries)),
            Ev.writeFile (pjoin folderPath "README.md") s,
            Ev.log (readmeSuccessMsg (pjoin folderPath "README.md"))],
         none) := by
      unfold generateReadmeOnce
      simp only [hm, ho]
      simp [hs]
    simp [genReadmeDir, h1, applyWrite]
  · intro hs
    subst hs
    have h1 : generateReadmeOnce oracle model folderPath entries =
        (none,
         ((filesOf entries).map fun p => Ev.readFile (pjoin folderPath p.1)) ++
           [Ev.providerCall (mkPrompt folderPath (filesOf entries)),
            Ev.log readmeFailureMsg],
         none) := by
      unfold generateReadmeOnce
      simp only [hm, ho]
      simp
    refine ⟨by simp [genReadmeDir, h1, applyWrite], ?_⟩
    intro p c
    simp [genReadmeDir, h1, applyWrite, List.mem_append, List.mem_map]

/-- Witness for C2: concrete folder `d` with one file, provider returning
`OK` — the run writes `OK` and logs success. -/
theorem c2_witness :
    genReadmeDir okOracle "gpt-4o" false "d" [("a.ts", FSNode.file "x")] =
      (writeEntry [("a.ts", FSNode.file "x")] "README.md" "OK",
       [Ev.readFile "d/a.ts",
        Ev.providerCall (mkPrompt "d" [("a.ts", "x")]),
        Ev.writeFile "d/README.md" "OK",
        Ev.log (readmeSuccessMsg "d/README.md")],
       none) := by
  have h := (c2_readme_write_all_or_nothing okOracle "gpt-4o" "d"
    [("a.ts", FSNode.file "x")] "OK" rfl rfl).1 (by decide)
  simpa [filesOf] using h

/-- Claim C9 (corrected): the `fs.existsSync` guard of the README Generator.
If the target path does not exist at all, the run logs
`Directory not found` and returns with an empty effect trace; if the target
path exists but is a regular file, the guard passes and the run instead
aborts with the `ENOTDIR` exception of `fs.readdirSync`, again with no
read, write or provider-call event. -/
theorem c9_directory_check {oracle : Oracle} {model : String}
    {recursive : Bool} {root : FSNode} {segs : List String} :
    (lookupNode root segs = none →
      generateReadmeService oracle model recursive root segs =
        (none, [Ev.log (dirNotFoundMsg (pathOf segs))], none)) ∧
    (∀ c, lookupNode root segs = some (FSNode.file c) →
      generateReadmeService oracle model recursive root segs =
        (none, [], some (RunError.enotdir (pathOf segs)))) := by
  constructor
  · intro h
    unfold generateReadmeService
    simp only [h]
  · intro c h
    unfold generateReadmeService
    simp only [h]

/-- Witness for C9: a missing path is reported as `Directory not found`
with no effects; a path naming a regular file aborts with `ENOTDIR`. -/
theorem c9_witness :
    generateReadmeService okOracle "gpt-4o" false (FSNode.dir []) ["missing"] =
      (none, [Ev.log (dirNotFoundMsg (pathOf ["missing"]))], none) ∧
    generateReadmeService okOracle "gpt-4o" false
      (FSNode.dir [("f.txt", FSNode.file "y")]) ["f.txt"] =
      (none, [], some (RunError.enotdir (pathOf ["f.txt"]))) :=
  ⟨c9_directory_check.1 rfl, c9_directory_check.2 "y" rfl⟩

/-- Counterexample for C9: the path `t` names a regular file, so it "does
not exist as a directory", yet the run does not report
`Directory not found` — it throws `ENOTDIR` (no events are produced). -/
theorem c9_counterexample :
    lookupNode (FSNode.dir [("t", FSNode.file "x")]) ["t"] =
      some (FSNode.file "x") ∧
    generateReadmeService okOracle "gpt-4o" false
      (FSNode.dir [("t", FSNode.file "x")]) ["t"] =
      (none, [], some (RunError.enotdir "t")) ∧
    ∀ m, Ev.log m ∉
      (generateReadmeService okOracle "gpt-4o" false
        (FSNode.dir [("t", FSNode.file "x")]) ["t"]).2.1 := by
  refine ⟨rfl, rfl, ?_⟩
  intro m h
  have he : (generateReadmeService okOracle "gpt-4o" false
      (FSNode.dir [("t", FSNode.file "x")]) ["t"]).2.1 = [] := rfl
  rw [he] at h
  cases h

/-- Claim C10 (confirmed): whenever the Copilot Instructions Generator
reaches the write step, the written file is the provider output (the empty
string when the provider returned nothing) followed by the fixed
`# All README files` separator section and the full aggregate README
contents — so the aggregate text is present verbatim in the written file. -/
theorem c10_copilot_written_content (oracle : Oracle)
    (model language cwd rootDir : String) (entries : List (String × FSNode))
    (s : String)
    (hm : getLLMRepository model = Except.ok ())
    (ho : oracle (copilotPrompt language entries) = Except.ok s) :
    (generateCopilotInstructionsService oracle model language cwd rootDir
        entries).written =
      some ((if s = "" then "" else s) ++ readmeSectionOf entries) ∧
    readmeSectionOf entries =
      "\n\n---\n\n# All README files\n" ++ allReadmeContents entries ∧
    (allReadmeContents entries).data <:+:
      ((if s = "" then "" else s) ++ readmeSectionOf entries).data ∧
    (generateCopilotInstructionsService oracle model language cwd rootDir
        entries).err = none := by
  refine ⟨?_, rfl, ?_, ?_⟩
  · unfold generateCopilotInstructionsService
    simp only [hm, ho]
  · refine ⟨((if s = "" then "" else s) ++
      "\n\n---\n\n# All README files\n").data, [], ?_⟩
    simp [readmeSectionOf, strdata_append]
  · unfold generateCopilotInstructionsService
    simp only [hm, ho]

/-- Witness for C10: concrete run over one README with provider output
`GEN`; the file content is `GEN` plus the separator section and aggregate. -/
theorem c10_witness :
    (generateCopilotInstructionsService genOracle "gpt-4o" "en" "w" "r"
        [("README.md", FSNode.file "r1")]).written =
      some ((if "GEN" = "" then "" else "GEN") ++
        readmeSectionOf [("README.md", FSNode.file "r1")]) ∧
    (allReadmeContents [("README.md", FSNode.file "r1")]).data <:+:
      ((if "GEN" = "" then "" else "GEN") ++
        readmeSectionOf [("README.md", FSNode.file "r1")]).data :=
  ⟨(c10_copilot_written_content genOracle "gpt-4o" "en" "w" "r"
      [("README.md", FSNode.file "r1")] "GEN" rfl rfl).1,
   (c10_copilot_written_content genOracle "gpt-4o" "en" "w" "r"
      [("README.md", FSNode.file "r1")] "GEN" rfl rfl).2.2.1⟩

/-- Claim C1 (corrected): when the provider returns an empty result, the
Copilot Instructions Generator does report the generation failure, but it
does not leave an existing `copilot-instructions.md` untouched: the write
is unconditional, and the file ends up holding exactly the README aggregate
section (prefixed by the empty instruction text). -/
theorem c1_empty_result_still_writes (oracle : Oracle)
    (model language cwd rootDir : String) (entries : List (String × FSNode))
    (hm : getLLMRepository model = Except.ok ())
    (ho : oracle (copilotPrompt language entries) = Except.ok "") :
    Ev.log copilotFailureMsg ∈
      (generateCopilotInstructionsService oracle model language cwd rootDir
        entries).events ∧
    (generateCopilotInstructionsService oracle model language cwd rootDir
        entries).written = some (readmeSectionOf entries) ∧
    ∀ prior, fileAfter prior
      (generateCopilotInstructionsService oracle model language cwd rootDir
        entries) = some (readmeSectionOf entries) := by
  have hrun : generateCopilotInstructionsService oracle model language cwd
      rootDir entries =
      ⟨some (readmeSectionOf entries),
       ((findAllReadmesRecursively "" entries).map fun p =>
          Ev.readFile (pjoin rootDir p.1)) ++
         [Ev.providerCall (copilotPrompt language entries),
          Ev.writeFile (copilotOutputPath cwd) (readmeSectionOf entries),
          Ev.log copilotFailureMsg],
       none⟩ := by
    unfold generateCopilotInstructionsService
    simp only [hm, ho]
    simp [str_empty_append]
  rw [hrun]
  exact ⟨by simp [CopilotRun.events], rfl, fun prior => rfl⟩

/-- Witness for C1 (amended): concrete run over one README with an
empty provider result — failure is logged yet the file is written. -/
theorem c1_witness :
    (generateCopilotInstructionsService emptyOracle "gpt-4o" "en" "w" "r"
        [("README.md", FSNode.file "doc")]).written =
      some (readmeSectionOf [("README.md", FSNode.file "doc")]) ∧
    ∀ prior, fileAfter prior
      (generateCopilotInstructionsService emptyOracle "gpt-4o" "en" "w" "r"
        [("README.md", FSNode.file "doc")]) =
      some (readmeSectionOf [("README.md", FSNode.file "doc")]) :=
  ⟨(c1_empty_result_still_writes emptyOracle "gpt-4o" "en" "w" "r"
      [("README.md", FSNode.file "doc")] rfl rfl).2.1,
   (c1_empty_result_still_writes emptyOracle "gpt-4o" "en" "w" "r"
      [("README.md", FSNode.file "doc")] rfl rfl).2.2⟩

/-- Counterexample for C1: a run over one README with an empty provider
result, where a prior `copilot-instructions.md` held `OLD`: the failure is
logged, yet the file afterwards no longer holds `OLD`. -/
theorem c1_counterexample :
    Ev.log copilotFailureMsg ∈
      (generateCopilotInstructionsService emptyOracle "gpt-4o" "en" "w" "r"
        [("README.md", FSNode.file "r1")]).events ∧
    fileAfter (some "OLD")
      (generateCopilotInstructionsService emptyOracle "gpt-4o" "en" "w" "r"
        [("README.md", FSNode.file "r1")]) ≠ some "OLD" := by
  have hrun : generateCopilotInstructionsService emptyOracle "gpt-4o" "en"
      "w" "r" [("README.md", FSNode.file "r1")] =
      ⟨some (readmeSectionOf [("README.md", FSNode.file "r1")]),
       [Ev.readFile "r/README.md",
        Ev.providerCall (copilotPrompt "en" [("README.md", FSNode.file "r1")]),
        Ev.writeFile (copilotOutputPath "w")
          (readmeSectionOf [("README.md", FSNode.file "r1")]),
        Ev.log copilotFailureMsg],
       none⟩ := by
    unfold generateCopilotInstructionsService
    simp [findAllReadmesRecursively, strToLower, joinRel, emptyOracle,
      getLLMRepository, strStartsWith, str_empty_append, pjoin]
  rw [hrun]
  refine ⟨by simp [CopilotRun.events], ?_⟩
  simp only [fileAfter]
  intro hcontra
  have : (readmeSectionOf [("README.md", FSNode.file "r1")]).data =
      "OLD".data := congrArg String.data (Option.some.inj hcontra)
  revert this
  simp [readmeSectionOf, allReadmeContents, findAllReadmesRecursively,
    strToLower, joinRel, joinSep, readmeTag, strTrim, strdata_append]

/-- Claim C5 (corrected): for a model name matching neither dispatch prefix,
both generators throw `UnsupportedModel` and perform no write event and no
provider call — but the dispatch happens only after the folder scan, so the
run's trace already holds the scan's file reads when the error is raised. -/
theorem c5_unsupported_model (oracle : Oracle) (model : String)
    (recursive : Bool) (folderPath : String)
    (entries : List (String × FSNode))
    (language cwd rootDir : String) (entries' : List (String × FSNode))
    (h1 : strStartsWith model "gpt-" = false)
    (h2 : strStartsWith model "gemini-" = false) :
    genReadmeDir oracle model recursive folderPath entries =
      (entries,
       (filesOf entries).map fun p => Ev.readFile (pjoin folderPath p.1),
       some (RunError.unsupportedModel model)) ∧
    (∀ p c, Ev.writeFile p c ∉
      (genReadmeDir oracle model recursive folderPath entries).2.1) ∧
    (∀ p, Ev.providerCall p ∉
      (genReadmeDir oracle model recursive folderPath entries).2.1) ∧
    generateCopilotInstructionsService oracle model language cwd rootDir
        entries' =
      ⟨none,
       (findAllReadmesRecursively "" entries').map fun p =>
         Ev.readFile (pjoin rootDir p.1),
       some (RunError.unsupportedModel model)⟩ := by
  have hm : getLLMRepository model =
      Except.error (RunError.unsupportedModel model) := by
    simp [getLLMRepository, h1, h2]
  have honce : generateReadmeOnce oracle model folderPath entries =
      (none,
       (filesOf entries).map fun p => Ev.readFile (pjoin folderPath p.1),
       some (RunError.unsupportedModel model)) := by
    unfold generateReadmeOnce
    simp only [hm]
  have hdir : genReadmeDir oracle model recursive folderPath entries =
      (entries,
       (filesOf entries).map fun p => Ev.readFile (pjoin folderPath p.1),
       some (RunError.unsupportedModel model)) := by
    simp [genReadmeDir, honce, applyWrite]
  refine ⟨hdir, ?_, ?_, ?_⟩
  · intro p c
    rw [hdir]
    simp [List.mem_map]
  · intro p
    rw [hdir]
    simp [List.mem_map]
  · unfold generateCopilotInstructionsService
    simp only [hm]

/-- Witness for C5 (amended): model `foo-bar` against concrete trees — the
README run's whole trace is the one scan read, and both runs end in
`UnsupportedModel`. -/
theorem c5_witness :
    genReadmeDir okOracle "foo-bar" false "d" [("a.ts", FSNode.file "x")] =
      ([("a.ts", FSNode.file "x")],
       (filesOf [("a.ts", FSNode.file "x")]).map fun p =>
         Ev.readFile (pjoin "d" p.1),
       some (RunError.unsupportedModel "foo-bar")) ∧
    generateCopilotInstructionsService okOracle "foo-bar" "en" "w" "r"
        [("README.md", FSNode.file "r1")] =
      ⟨none,
       (findAllReadmesRecursively "" [("README.md", FSNode.file "r1")]).map
         fun p => Ev.readFile (pjoin "r" p.1),
       some (RunError.unsupportedModel "foo-bar")⟩ :=
  ⟨(c5_unsupported_model okOracle "foo-bar" false "d"
      [("a.ts", FSNode.file "x")] "en" "w" "r"
      [("README.md", FSNode.file "r1")] rfl rfl).1,
   (c5_unsupported_model okOracle "foo-bar" false "d"
      [("a.ts", FSNode.file "x")] "en" "w" "r"
      [("README.md", FSNode.file "r1")] rfl rfl).2.2.2⟩

/-- Counterexample for C5: with model `foo-bar` on a folder holding `a.ts`,
the run raises `UnsupportedModel` but its trace already holds the read of
`a.ts` — the error does not happen before all file I/O. -/
theorem c5_counterexample :
    generateReadmeService okOracle "foo-bar" false
      (FSNode.dir [("d", FSNode.dir [("a.ts", FSNode.file "x")])]) ["d"] =
      (some (FSNode.dir [("a.ts", FSNode.file "x")]),
       [Ev.readFile "d/a.ts"],
       some (RunError.unsupportedModel "foo-bar")) ∧
    Ev.readFile "d/a.ts" ∈
      (generateReadmeService okOracle "foo-bar" false
        (FSNode.dir [("d", FSNode.dir [("a.ts", FSNode.file "x")])])
        ["d"]).2.1 := by
  have honce : generateReadmeOnce okOracle "foo-bar" "d"
      [("a.ts", FSNode.file "x")] =
      (none, [Ev.readFile "d/a.ts"],
       some (RunError.unsupportedModel "foo-bar")) := rfl
  have hdir : genReadmeDir okOracle "foo-bar" false "d"
      [("a.ts", FSNode.file "x")] =
      ([("a.ts", FSNode.file "x")], [Ev.readFile "d/a.ts"],
       some (RunError.unsupportedModel "foo-bar")) := by
    simp [genReadmeDir, honce, applyWrite]
  have hl : lookupNode
      (FSNode.dir [("d", FSNode.dir [("a.ts", FSNode.file "x")])]) ["d"] =
      some (FSNode.dir [("a.ts", FSNode.file "x")]) := rfl
  have hrun : generateReadmeService okOracle "foo-bar" false
      (FSNode.dir [("d", FSNode.dir [("a.ts", FSNode.file "x")])]) ["d"] =
      (some (FSNode.dir [("a.ts", FSNode.file "x")]),
       [Ev.readFile "d/a.ts"],
       some (RunError.unsupportedModel "foo-bar")) := by
    unfold generateReadmeService
    rw [hl]
    simp only [show pathOf ["d"] = "d" from rfl, hdir]
  exact ⟨hrun, by rw [hrun]; simp⟩

/-- Claim C7 (corrected): the folder scan does not exclude the generator's
own output file: an existing `README.md` is a member of the scanned content
set and is read like any other file during the folder pass. -/
theorem c7_scan_includes_readme (oracle : Oracle) (model folderPath : String)
    (c : String) (entries : List (String × FSNode))
    (h : ("README.md", FSNode.file c) ∈ entries) :
    ("README.md", c) ∈ filesOf entries ∧
    Ev.readFile (pjoin folderPath "README.md") ∈
      (generateReadmeOnce oracle model folderPath entries).2.1 := by
  have h1 := mem_filesOf h
  refine ⟨h1, ?_⟩
  obtain ⟨tail, ht⟩ :=
    generateReadmeOnce_events_readEvs oracle model folderPath entries
  rw [ht]
  exact List.mem_append_left _ (List.mem_map.mpr ⟨("README.md", c), h1, rfl⟩)

/-- Witness for C7 (amended): a folder whose listing holds `README.md` with
body `PREV` — the scan keeps it and the run reads it. -/
theorem c7_witness :
    ("README.md", "PREV") ∈
      filesOf [("README.md", FSNode.file "PREV"), ("a.ts", FSNode.file "x")] ∧
    Ev.readFile (pjoin "d" "README.md") ∈
      (generateReadmeOnce okOracle "gpt-4o" "d"
        [("README.md", FSNode.file "PREV"),
         ("a.ts", FSNode.file "x")]).2.1 :=
  c7_scan_includes_readme okOracle "gpt-4o" "d" "PREV"
    [("README.md", FSNode.file "PREV"), ("a.ts", FSNode.file "x")]
    (List.mem_cons_self _ _)

/-- Counterexample for C7: with an existing `README.md` holding `PREVBODY`,
the scanned content set contains it and the constructed prompt contains its
previous body — the snapshot does not exclude the output file. -/
theorem c7_counterexample :
    ("README.md", "PREVBODY") ∈
      filesOf [("README.md", FSNode.file "PREVBODY"),
        ("a.ts", FSNode.file "x")] ∧
    "PREVBODY".data <:+:
      (mkPrompt "d" (filesOf [("README.md", FSNode.file "PREVBODY"),
        ("a.ts", FSNode.file "x")])).data := by
  constructor
  · simp [filesOf]
  · exact (content_in_fileSummary "README.md" (by decide)).trans
      (fileSummary_in_mkPrompt "d" (mem_filesOf (List.mem_cons_self _ _)))

/-- Claim C3 (corrected): an existing `README.md` body `x` reaches the
prompt only as an ordinary scanned-file block, truncated to its first 1000
characters; when `x` is at most 1000 characters the block holds `x` raw,
and under a supported model the run passes that prompt to the provider. -/
theorem c3_prompt_contains_sliced_readme (oracle : Oracle) (model : String)
    (recursive : Bool) (folderPath : String) (x : String)
    (entries : List (String × FSNode))
    (h1 : ("README.md", FSNode.file x) ∈ entries)
    (h2 : x.data.length ≤ 1000)
    (h3 : getLLMRepository model = Except.ok ()) :
    x.data <:+: (mkPrompt folderPath (filesOf entries)).data ∧
    (fileSummary "README.md" x).data <:+:
      (mkPrompt folderPath (filesOf entries)).data ∧
    Ev.providerCall (mkPrompt folderPath (filesOf entries)) ∈
      (genReadmeDir oracle model recursive folderPath entries).2.1 := by
  have hblock := fileSummary_in_mkPrompt folderPath (mem_filesOf h1)
  refine ⟨(content_in_fileSummary "README.md" h2).trans hblock, hblock, ?_⟩
  obtain ⟨tail, ht⟩ :=
    genReadmeDir_events_extend oracle model recursive folderPath entries
  rw [ht]
  exact List.mem_append_left _ (providerCall_mem_once folderPath entries h3)

/-- Witness for C3 (amended): concrete folder whose `README.md` holds
`PREV` — the raw body and its block occur in the prompt, and the prompt is
passed to the provider. -/
theorem c3_witness :
    "PREV".data <:+:
      (mkPrompt "d" (filesOf [("README.md", FSNode.file "PREV")])).data ∧
    Ev.providerCall (mkPrompt "d" (filesOf [("README.md", FSNode.file "PREV")])) ∈
      (genReadmeDir okOracle "gpt-4o" false "d"
        [("README.md", FSNode.file "PREV")]).2.1 :=
  ⟨(c3_prompt_contains_sliced_readme okOracle "gpt-4o" false "d" "PREV"
      [("README.md", FSNode.file "PREV")] (List.mem_cons_self _ _)
      (by decide) rfl).1,
   (c3_prompt_contains_sliced_readme okOracle "gpt-4o" false "d" "PREV"
      [("README.md", FSNode.file "PREV")] (List.mem_cons_self _ _)
      (by decide) rfl).2.2⟩

set_option maxRecDepth 4000 in
/-- Counterexample for C3: an existing `README.md` body of 1001 characters
(1000 `a`s and one `@`) does not occur verbatim anywhere in the prompt —
the scan slices each file to its first 1000 characters, so the final `@`
never reaches the prompt. -/
theorem c3_counterexample :
    ¬ (longReadme.data <:+:
      (mkPrompt "d" (filesOf [("README.md", FSNode.file longReadme)])).data) := by
  intro h
  have hat : '@' ∈ longReadme.data := by
    rw [show longReadme.data = List.replicate 1000 'a' ++ ['@'] from rfl]
    exact List.mem_append_right _ (List.mem_singleton_self '@')
  have hmem : '@' ∈
      (mkPrompt "d" (filesOf [("README.md", FSNode.file longReadme)])).data :=
    h.subset hat
  have hslice : slice1000 longReadme = ⟨List.replicate 1000 'a'⟩ :=
    congrArg String.mk (List.take_left' (List.length_replicate 1000 'a'))
  revert hmem
  simp only [mkPrompt, filesOf, List.filterMap, fileSummary, hslice, joinSep,
    strdata_append, List.mem_append]
  decide

/-- Claim C4 (corrected): the generator performs no per-line truncation at
all: each file's content is sliced to its first 1000 characters as a whole,
and a content of at most 1000 characters — regardless of how long its lines
are — appears raw inside its summary block in the prompt, with no `...`
marker added. -/
theorem c4_no_line_truncation (folderPath name content : String)
    (entries : List (String × FSNode))
    (h1 : (name, FSNode.file content) ∈ entries)
    (h2 : content.data.length ≤ 1000) :
    (fileSummary name content).data <:+:
      (mkPrompt folderPath (filesOf entries)).data ∧
    fileSummary name content =
      "## " ++ name ++ "\n```\n" ++ content ++ "\n```" := by
  refine ⟨fileSummary_in_mkPrompt folderPath (mem_filesOf h1), ?_⟩
  rw [fileSummary, slice1000_of_le h2]

/-- Witness for C4 (amended): `b.ts` holds one 200-character line (longer
than the 120-character width); its summary block is in the prompt and holds
the content raw. -/
theorem c4_witness :
    120 < longLine.data.length ∧
    (fileSummary "b.ts" longLine).data <:+:
      (mkPrompt "d" (filesOf [("b.ts", FSNode.file longLine)])).data ∧
    fileSummary "b.ts" longLine =
      "## " ++ "b.ts" ++ "\n```\n" ++ longLine ++ "\n```" := by
  have h := c4_no_line_truncation "d" "b.ts" longLine
    [("b.ts", FSNode.file longLine)] (List.mem_cons_self _ _)
    (by rw [longLine_length]; omega)
  exact ⟨by rw [longLine_length]; omega, h.1, h.2⟩

/-- Counterexample for C4: the 200-character line of `@`s — strictly longer
than the 120-character width — occurs raw in the prompt the run passes to
the provider, which the claim forbids. -/
theorem c4_counterexample :
    120 < longLine.data.length ∧
    longLine.data <:+:
      (mkPrompt "d" (filesOf [("b.ts", FSNode.file longLine)])).data ∧
    Ev.providerCall (mkPrompt "d" (filesOf [("b.ts", FSNode.file longLine)])) ∈
      (generateReadmeOnce okOracle "gpt-4o" "d"
        [("b.ts", FSNode.file longLine)]).2.1 := by
  refine ⟨by rw [longLine_length]; omega, ?_, ?_⟩
  · exact (content_in_fileSummary "b.ts" (by rw [longLine_length]; omega)).trans
      (fileSummary_in_mkPrompt "d" (mem_filesOf (List.mem_cons_self _ _)))
  · exact providerCall_mem_once "d" [("b.ts", FSNode.file longLine)] rfl

/-- Claim C6 (corrected): during a recursive run whose parent pass returned
normally, only a thrown error decides the siblings' fate.  If the first
subdirectory's pass throws (a provider rejection, or an unsupported model),
the walk aborts: the run's error is that error, its trace is exactly the
parent folder's events followed by the failing subdirectory's events, and
the remaining siblings are returned unprocessed with no events of their
own.  If instead the first subdirectory's run returns normally — which
includes a logged `GenerationFailed` on an empty provider result — the walk
does continue to the remaining siblings. -/
theorem c6_error_aborts_siblings (oracle : Oracle)
    (model folderPath n : String) (es rest : List (String × FSNode))
    (w : Option String) (evs₀ : List Ev)
    (h0 : generateReadmeOnce oracle model folderPath
      ((n, FSNode.dir es) :: rest) = (w, evs₀, none)) :
    (∀ (w₁ : Option String) (evs₁ : List Ev) (e : RunError),
      generateReadmeOnce oracle model (pjoin folderPath n) es =
        (w₁, evs₁, some e) →
      genReadmeDir oracle model true folderPath ((n, FSNode.dir es) :: rest) =
        (applyWrite w ((n, FSNode.dir es) :: rest), evs₀ ++ evs₁, some e)) ∧
    (∀ (es' rest' : List (String × FSNode)) (evs₁ evs₂ : List Ev)
        (err : Option RunError),
      genReadmeDir oracle model true (pjoin folderPath n) es =
        (es', evs₁, none) →
      genReadmeSubdirs oracle model folderPath rest = (rest', evs₂, err) →
      genReadmeDir oracle model true folderPath ((n, FSNode.dir es) :: rest) =
        (applyWrite w ((n, FSNode.dir es') :: rest'),
         evs₀ ++ (evs₁ ++ evs₂), err)) := by
  constructor
  · intro w₁ evs₁ e h1
    have hw : w₁ = none := generateReadmeOnce_error_written h1
    subst hw
    have hsub : genReadmeDir oracle model true (pjoin folderPath n) es =
        (es, evs₁, some e) := by
      rw [genReadmeDir]
      simp only [h1]
      simp [applyWrite]
    exact genReadmeDir_rec_eq h0 (genReadmeSubdirs_cons_dir_error hsub)
  · intro es' rest' evs₁ evs₂ err hsub hrest
    exact genReadmeDir_rec_eq h0 (genReadmeSubdirs_cons_dir_ok hsub hrest)

set_option maxRecDepth 4000 in
/-- Witness for C6 (amended), both directions on the tree `d` with
subdirectories `s1` and `s2`.  With the provider rejecting exactly on
`s1`'s prompt, the run ends in `ProviderCallError` right after `s1`'s
events and `s2` contributes nothing.  With the provider returning empty
text everywhere (every folder logs `GenerationFailed`, nothing throws),
the walk continues past `s1` and `s2` is processed. -/
theorem c6_witness :
    genReadmeDir failS1Oracle "gpt-4o" true "d" twoSubdirTree =
      (applyWrite (some "T") twoSubdirTree,
       [Ev.providerCall (mkPrompt "d" []),
        Ev.writeFile "d/README.md" "T",
        Ev.log (readmeSuccessMsg "d/README.md")] ++
       [Ev.readFile "d/s1/f1.ts",
        Ev.providerCall (mkPrompt "d/s1" [("f1.ts", "one")])],
       some RunError.providerCallError) ∧
    genReadmeDir emptyOracle "gpt-4o" true "d" twoSubdirTree =
      (twoSubdirTree,
       [Ev.providerCall (mkPrompt "d" []), Ev.log readmeFailureMsg] ++
       ([Ev.readFile "d/s1/f1.ts",
         Ev.providerCall (mkPrompt "d/s1" [("f1.ts", "one")]),
         Ev.log readmeFailureMsg] ++
        [Ev.readFile "d/s2/f2.ts",
         Ev.providerCall (mkPrompt "d/s2" [("f2.ts", "two")]),
         Ev.log readmeFailureMsg]),
       none) := by
  constructor
  · exact (c6_error_aborts_siblings failS1Oracle "gpt-4o" "d" "s1"
      [("f1.ts", FSNode.file "one")]
      [("s2", FSNode.dir [("f2.ts", FSNode.file "two")])]
      (some "T")
      [Ev.providerCall (mkPrompt "d" []),
       Ev.writeFile "d/README.md" "T",
       Ev.log (readmeSuccessMsg "d/README.md")]
      (by decide)).1 none
      [Ev.readFile "d/s1/f1.ts",
       Ev.providerCall (mkPrompt "d/s1" [("f1.ts", "one")])]
      RunError.providerCallError (by decide)
  · have honce1 : generateReadmeOnce emptyOracle "gpt-4o" "d/s1"
        [("f1.ts", FSNode.file "one")] =
        (none,
         [Ev.readFile "d/s1/f1.ts",
          Ev.providerCall (mkPrompt "d/s1" [("f1.ts", "one")]),
          Ev.log readmeFailureMsg],
         none) := by decide
    have hsub : genReadmeDir emptyOracle "gpt-4o" true "d/s1"
        [("f1.ts", FSNode.file "one")] =
        ([("f1.ts", FSNode.file "one")],
         [Ev.readFile "d/s1/f1.ts",
          Ev.providerCall (mkPrompt "d/s1" [("f1.ts", "one")]),
          Ev.log readmeFailureMsg],
         none) := by
      rw [genReadmeDir]
      simp only [honce1]
      simp [genReadmeSubdirs, applyWrite]
    have honce2 : generateReadmeOnce emptyOracle "gpt-4o" "d/s2"
        [("f2.ts", FSNode.file "two")] =
        (none,
         [Ev.readFile "d/s2/f2.ts",
          Ev.providerCall (mkPrompt "d/s2" [("f2.ts", "two")]),
          Ev.log readmeFailureMsg],
         none) := by decide
    have hsub2 : genReadmeDir emptyOracle "gpt-4o" true "d/s2"
        [("f2.ts", FSNode.file "two")] =
        ([("f2.ts", FSNode.file "two")],
         [Ev.readFile "d/s2/f2.ts",
          Ev.providerCall (mkPrompt "d/s2" [("f2.ts", "two")]),
          Ev.log readmeFailureMsg],
         none) := by
      rw [genReadmeDir]
      simp only [honce2]
      simp [genReadmeSubdirs, applyWrite]
    have hrest : genReadmeSubdirs emptyOracle "gpt-4o" "d"
        [("s2", FSNode.dir [("f2.ts", FSNode.file "two")])] =
        ([("s2", FSNode.dir [("f2.ts", FSNode.file "two")])],
         [Ev.readFile "d/s2/f2.ts",
          Ev.providerCall (mkPrompt "d/s2" [("f2.ts", "two")]),
          Ev.log readmeFailureMsg],
         none) := by
      rw [genReadmeSubdirs]
      rw [show pjoin "d" "s2" = "d/s2" from rfl]
      simp only [hsub2]
      simp [genReadmeSubdirs]
    exact (c6_error_aborts_siblings emptyOracle "gpt-4o" "d" "s1"
      [("f1.ts", FSNode.file "one")]
      [("s2", FSNode.dir [("f2.ts", FSNode.file "two")])]
      none
      [Ev.providerCall (mkPrompt "d" []), Ev.log readmeFailureMsg]
      (by decide)).2
      [("f1.ts", FSNode.file "one")]
      [("s2", FSNode.dir [("f2.ts", FSNode.file "two")])]
      [Ev.readFile "d/s1/f1.ts",
       Ev.providerCall (mkPrompt "d/s1" [("f1.ts", "one")]),
       Ev.log readmeFailureMsg]
      [Ev.readFile "d/s2/f2.ts",
       Ev.providerCall (mkPrompt "d/s2" [("f2.ts", "two")]),
       Ev.log readmeFailureMsg]
      none hsub hrest

set_option maxRecDepth 4000 in
/-- Counterexample for C6: in the same run, sibling `s2` is never visited:
its file is not read, its prompt is never sent, and no `README.md` is
written inside it — the first subdirectory's failure aborted the walk. -/
theorem c6_counterexample :
    (genReadmeDir failS1Oracle "gpt-4o" true "d" twoSubdirTree).2.2 =
      some RunError.providerCallError ∧
    Ev.readFile "d/s2/f2.ts" ∉
      (genReadmeDir failS1Oracle "gpt-4o" true "d" twoSubdirTree).2.1 ∧
    Ev.providerCall (mkPrompt "d/s2" [("f2.ts", "two")]) ∉
      (genReadmeDir failS1Oracle "gpt-4o" true "d" twoSubdirTree).2.1 ∧
    ∀ c, Ev.writeFile "d/s2/README.md" c ∉
      (genReadmeDir failS1Oracle "gpt-4o" true "d" twoSubdirTree).2.1 := by
  have h0 : generateReadmeOnce failS1Oracle "gpt-4o" "d" twoSubdirTree =
      (some "T",
       [Ev.providerCall (mkPrompt "d" []),
        Ev.writeFile "d/README.md" "T",
        Ev.log (readmeSuccessMsg "d/README.md")],
       none) := by decide
  have h1 : generateReadmeOnce failS1Oracle "gpt-4o" "d/s1"
      [("f1.ts", FSNode.file "one")] =
      (none,
       [Ev.readFile "d/s1/f1.ts",
        Ev.providerCall (mkPrompt "d/s1" [("f1.ts", "one")])],
       some RunError.providerCallError) := by decide
  have hsub : genReadmeDir failS1Oracle "gpt-4o" true "d/s1"
      [("f1.ts", FSNode.file "one")] =
      ([("f1.ts", FSNode.file "one")],
       [Ev.readFile "d/s1/f1.ts",
        Ev.providerCall (mkPrompt "d/s1" [("f1.ts", "one")])],
       some RunError.providerCallError) := by
    rw [genReadmeDir]
    simp only [h1]
    simp [applyWrite]
  have hrun := genReadmeDir_rec_eq h0 (genReadmeSubdirs_cons_dir_error hsub)
  rw [hrun]
  refine ⟨rfl, by decide, by decide, ?_⟩
  intro c
  simp [applyWrite, List.mem_append]

/-- Claim C8 (corrected): recursive discovery is exhaustive: every file of
the tree — at any depth — whose name case-insensitively equals `README.md`
contributes its content, trimmed of surrounding whitespace and tagged with
its path relative to the root, to the aggregate prompt of the Copilot
Instructions Generator, which is passed to the provider. -/
theorem c8_discovery_exhaustive (oracle : Oracle)
    (model language cwd rootDir : String) (entries : List (String × FSNode))
    (n r c : String)
    (h1 : (n, r, c) ∈ allFilesRel "" entries)
    (h2 : strToLower n = "readme.md")
    (h3 : getLLMRepository model = Except.ok ()) :
    (readmeTag r c).data <:+: (copilotPrompt language entries).data ∧
    readmeTag r c = "# " ++ r ++ "\n\n" ++ strTrim c ++ "\n" ∧
    Ev.providerCall (copilotPrompt language entries) ∈
      (generateCopilotInstructionsService oracle model language cwd rootDir
        entries).events := by
  have hf := allFilesRel_readme_found "" entries h1 h2
  have htag : readmeTag r c ∈
      (findAllReadmesRecursively "" entries).map fun p => readmeTag p.1 p.2 :=
    List.mem_map.mpr ⟨(r, c), hf, rfl⟩
  have hagg := joinSep_contains "\n---\n" htag
  refine ⟨?_, rfl, ?_⟩
  · have hd : (copilotPrompt language entries).data =
        (copilotPromptHead ++ language ++ copilotPromptMid).data ++
          (allReadmeContents entries).data := by
      simp [copilotPrompt, strdata_append, List.append_assoc]
    rw [hd]
    exact infix_of_append_left _ hagg
  · unfold generateCopilotInstructionsService
    simp only [h3]
    rcases ho : oracle (copilotPrompt language entries) with e | s <;>
      simp only [ho]
    · simp
    · by_cases hs : s = "" <;> simp [hs]

/-- Witness for C8 (amended): a tree with `README.md` inside subdirectory
`sub` and `readme.MD` at the root — both tagged trimmed contents occur in
the prompt, which is passed to the provider. -/
theorem c8_witness :
    (readmeTag "sub/README.md" "B").data <:+:
      (copilotPrompt "en"
        [("sub", FSNode.dir [("README.md", FSNode.file "B")]),
         ("readme.MD", FSNode.file "A")]).data ∧
    (readmeTag "readme.MD" "A").data <:+:
      (copilotPrompt "en"
        [("sub", FSNode.dir [("README.md", FSNode.file "B")]),
         ("readme.MD", FSNode.file "A")]).data ∧
    Ev.providerCall (copilotPrompt "en"
        [("sub", FSNode.dir [("README.md", FSNode.file "B")]),
         ("readme.MD", FSNode.file "A")]) ∈
      (generateCopilotInstructionsService okOracle "gpt-4o" "en" "w" "r"
        [("sub", FSNode.dir [("README.md", FSNode.file "B")]),
         ("readme.MD", FSNode.file "A")]).events := by
  refine ⟨?_, ?_, ?_⟩
  · exact (c8_discovery_exhaustive okOracle "gpt-4o" "en" "w" "r"
      [("sub", FSNode.dir [("README.md", FSNode.file "B")]),
       ("readme.MD", FSNode.file "A")] "README.md" "sub/README.md" "B"
      (by simp [allFilesRel, joinRel]) (by decide) rfl).1
  · exact (c8_discovery_exhaustive okOracle "gpt-4o" "en" "w" "r"
      [("sub", FSNode.dir [("README.md", FSNode.file "B")]),
       ("readme.MD", FSNode.file "A")] "readme.MD" "readme.MD" "A"
      (by simp [allFilesRel, joinRel]) (by decide) rfl).1
  · exact (c8_discovery_exhaustive okOracle "gpt-4o" "en" "w" "r"
      [("sub", FSNode.dir [("README.md", FSNode.file "B")]),
       ("readme.MD", FSNode.file "A")] "README.md" "sub/README.md" "B"
      (by simp [allFilesRel, joinRel]) (by decide) rfl).2.2

set_option maxRecDepth 8000 in
/-- Counterexample for C8: a discovered `README.md` whose content is `@ `
(an `@` and a trailing space): the aggregate prompt holds only the trimmed
content `@`, so the file's content does not occur in the prompt. -/
theorem c8_counterexample :
    findAllReadmesRecursively "" [("README.md", FSNode.file "@ ")] =
      [("README.md", "@ ")] ∧
    ¬ ("@ ".data <:+:
      (copilotPrompt "en" [("README.md", FSNode.file "@ ")]).data) := by
  constructor
  · simp [findAllReadmesRecursively, strToLower, joinRel]
  · have h : copilotPrompt "en" [("README.md", FSNode.file "@ ")] =
        copilotPromptHead ++ "en" ++ copilotPromptMid ++
          "# README.md\n\n@\n" := by
      simp [copilotPrompt, allReadmeContents, findAllReadmesRecursively,
        joinRel, strToLower, joinSep, readmeTag, strTrim]
    rw [h]
    decide

end Genspec
